import Mathlib

/-!
Verification of the import-data-real-time frontend core: the job data model
(`src/frontend/src/lib/types/api.ts`), the SSE subscriber state machines
(`src/frontend/src/hooks/useJobSSE.ts`, `useJobsSSE.ts`), the SSE client
(`src/frontend/src/lib/api/sse.ts`), upload intake (`beforeUpload` in the
upload form component), the column-mapping editor, and `calculateProgress`
(`src/frontend/src/lib/utils/formatters.ts`), together with a spec-modelled
Row Processor for the backend counters (the backend worker itself is not in
the repository snapshot; only its documentation is).
-/

namespace ImportRT

/-- Job status, from the TS union type `JobStatus` in
`src/frontend/src/lib/types/api.ts` line 1:
`'pending' | 'processing' | 'completed' | 'failed'`. -/
inductive JobStatus where
  | pending
  | processing
  | completed
  | failed
deriving DecidableEq

/-- The wire string a `JobStatus` denotes (TS stores the string itself). -/
def JobStatus.toWire : JobStatus → String
  | .pending => "pending"
  | .processing => "processing"
  | .completed => "completed"
  | .failed => "failed"

/-- Whether a status is terminal (`COMPLETED`/`FAILED`). -/
def JobStatus.isTerminal : JobStatus → Bool
  | .completed => true
  | .failed => true
  | _ => false

/-- Job summary record, from `ImportJobResponse` in `api.ts`.
Counter fields are `Option Nat`: `none` models both a TS `null` and a runtime
`undefined` (the SSE handlers can write `undefined` into them at runtime even
though the declared TS type is `number`). -/
structure ImportJobResponse where
  id : String
  filename : String
  status : JobStatus
  total_rows : Option Nat
  processed_rows : Option Nat
  error_rows : Option Nat
  started_at : Option String
  finished_at : Option String
  created_at : String
deriving DecidableEq

/-- Per-job log line, from `JobLogResponse` in `api.ts`.
The level union `'info' | 'warning' | 'error'` is kept as its wire string. -/
structure JobLogResponse where
  id : String
  job_id : String
  level : String
  message : String
  created_at : String
deriving DecidableEq

/-- Full job record with logs, from `ImportJobDetail extends ImportJobResponse`. -/
structure ImportJobDetail extends ImportJobResponse where
  logs : List JobLogResponse
deriving DecidableEq

/-! JavaScript truthiness helpers for optional string fields: `undefined`,
`null` and the empty string are falsy. -/

/-- Truthiness of a JS value that is either a string or absent. -/
def jsTruthy : Option String → Bool
  | none => false
  | some s => !(s == "")

/-- JS `a || b` on two optional strings: yields `a` when `a` is truthy. -/
def jsOr (a b : Option String) : Option String :=
  if jsTruthy a then a else b

/-- JS `a || b` where the fallback is a plain string (e.g. `data.filename || ''`). -/
def jsOrStr (a : Option String) (b : String) : String :=
  if jsTruthy a then a.getD b else b

/-- JS `a ?? b` (nullish coalescing) on optional numbers. -/
def jsNullish (a b : Option Nat) : Option Nat :=
  match a with
  | some v => some v
  | none => b

/-! JS string primitives used by the source, embedded over the character
list (Lean's built-in `String` API does not kernel-reduce, and the JS
semantics is on code points anyway). -/

/-- JS `s.endsWith(sfx)`. -/
def jsEndsWith (s sfx : String) : Bool := sfx.data.isSuffixOf s.data

/-- JS `s.startsWith(pre)`. -/
def jsStartsWith (s pre : String) : Bool := pre.data.isPrefixOf s.data

/-- JS `s.trim()`: strip leading and trailing whitespace. -/
def jsTrim (s : String) : String :=
  String.mk (((s.data.dropWhile Char.isWhitespace).reverse.dropWhile
    Char.isWhitespace).reverse)

/-- JS `s.toLowerCase()` (on the ASCII range the source uses). -/
def jsToLower (s : String) : String := String.mk (s.data.map Char.toLower)

/-! ## `calculateProgress`, from `src/frontend/src/lib/utils/formatters.ts` lines 22-25.

JS numbers are idealized as rationals (the claims under study involve no
rounding of the arithmetic itself, only `Math.round`). -/

/-- JS `Math.round`: round half toward positive infinity. -/
def mathRound (x : ℚ) : ℤ := ⌊x + 1/2⌋

/-- `calculateProgress(processed, total)` from `formatters.ts`:
`if (!total || total === 0) return 0; return Math.round((processed / total) * 100)`.
`total` is `number | null`; the JS falsiness guard `!total` rejects `null` and `0`
(rationals have no `NaN`, the only other falsy number). -/
def calculateProgress (processed : ℚ) (total : Option ℚ) : ℚ :=
  match total with
  | none => 0
  | some t => if t = 0 then 0 else ((mathRound (processed / t * 100) : ℤ) : ℚ)

/-! ## SSE client, from `src/frontend/src/lib/api/sse.ts` -/

namespace SSEClient

/-- Resolved client options, from the `SSEClient` constructor (lines 28-36):
each option defaults via `??`. `maxReconnectAttempts : Option Nat` with `none`
modelling the JS default `Infinity`; the other defaults are finite integers, so
`Nat` embeds them exactly. -/
structure Options where
  reconnectDelay : Nat
  maxReconnectDelay : Nat
  backoffMultiplier : Nat
  maxReconnectAttempts : Option Nat
deriving DecidableEq

/-- The options produced by `new SSEClient(url)` with no options argument:
`reconnectDelay 1000`, `maxReconnectDelay 30000`, `backoffMultiplier 2`,
`maxReconnectAttempts Infinity`. -/
def defaultOptions : Options :=
  { reconnectDelay := 1000
    maxReconnectDelay := 30000
    backoffMultiplier := 2
    maxReconnectAttempts := none }

/-- JS `this.reconnectAttempts >= this.options.maxReconnectAttempts`;
a finite count is never `>=` Infinity (`none`). -/
def atMaxAttempts (opts : Options) (reconnectAttempts : Nat) : Bool :=
  match opts.maxReconnectAttempts with
  | none => false
  | some m => reconnectAttempts ≥ m

/-- Outcome of `scheduleReconnect`: either the `max_reconnect_attempts` event
is emitted and no retry is scheduled, or a retry timer is set for `delayMs`. -/
inductive ReconnectAction where
  | emitMaxReconnectAttempts
  | retryAfter (delayMs : Nat)
deriving DecidableEq

/-- `scheduleReconnect` from `sse.ts` lines 214-231: below the attempt cap it
schedules a retry after
`Math.min(reconnectDelay * backoffMultiplier ** reconnectAttempts, maxReconnectDelay)`
milliseconds; at or above the cap it emits `max_reconnect_attempts` instead. -/
def scheduleReconnect (opts : Options) (reconnectAttempts : Nat) : ReconnectAction :=
  if atMaxAttempts opts reconnectAttempts then
    .emitMaxReconnectAttempts
  else
    .retryAfter
      (min (opts.reconnectDelay * opts.backoffMultiplier ^ reconnectAttempts)
        opts.maxReconnectDelay)

/-- The `event.data` payload as seen by an `addEventListener` callback:
`absent` models `null`/`undefined`, `nonString` models any non-string value,
`str s` a string payload. -/
inductive EventData where
  | absent
  | nonString
  | str (s : String)
deriving DecidableEq

/-- The listener guard from `sse.ts` lines 50-70 (identical at lines 73-91,
123-133 and 166-184): skip when the data is absent, not a string, trims to
empty, or trims to a string starting with a colon; otherwise hand the string
to `JSON.parse` and the registered callbacks.  `parse` abstracts `JSON.parse`
(returning `none` models a thrown-and-caught parse error, where no callback
runs). Returns the parsed value handed to callbacks, or `none` when no
callback is invoked. -/
def dispatch {α : Type} (parse : String → Option α) : EventData → Option α
  | .absent => none
  | .nonString => none
  | .str s =>
    if jsTrim s = "" then none
    else if jsStartsWith (jsTrim s) ":" then none
    else parse s

/-- One subscriber step on a raw SSE frame: the registered callback `apply`
runs exactly when `dispatch` yields a parsed payload; otherwise the state is
untouched. -/
def stepRaw {α σ : Type} (parse : String → Option α) (apply : σ → α → σ)
    (st : σ) (d : EventData) : σ :=
  match dispatch parse d with
  | none => st
  | some e => apply st e

end SSEClient

/-! ## Upload intake, from the upload form component (`src/unnamed/part_002`) -/

/-- A candidate file as antd hands it to `beforeUpload`: `name`, MIME `type`
(called `mime` here; `type` is the TS property name), and `size` in bytes. -/
structure UploadCandidate where
  name : String
  mime : String
  size : Nat
deriving DecidableEq

/-- The three MIME types accepted by `beforeUpload` (part_002 line 32). -/
def validUploadMimeTypes : List String :=
  ["text/csv", "application/vnd.ms-excel",
   "application/vnd.openxmlformats-officedocument.spreadsheetml.sheet"]

/-- `beforeUpload` from the upload form (part_002 lines 31-47), as the
predicate "the file is kept in the upload list" (`true`) versus "rejected with
`Upload.LIST_IGNORE`" (`false`).  A file passes when its MIME type is one of
the three spreadsheet types OR its name ends in `.csv`/`.xlsx`/`.xls`, and
`file.size / 1024 / 1024 < 20` — for byte counts below 2^53 the float division
by 2^20 is exact, so this is `size < 20 * 1024 * 1024`. -/
def beforeUploadAccepts (f : UploadCandidate) : Bool :=
  let isValidType := validUploadMimeTypes.contains f.mime
    || jsEndsWith f.name ".csv" || jsEndsWith f.name ".xlsx"
    || jsEndsWith f.name ".xls"
  isValidType && decide (f.size < 20 * 1024 * 1024)

/-- The upload list after `beforeUpload` has filtered the candidates: rejected
files are never added (`Upload.LIST_IGNORE`), and `handleUpload` issues one
`createJob` request per file of this list and no other. -/
def acceptedFiles (fs : List UploadCandidate) : List UploadCandidate :=
  fs.filter beforeUploadAccepts

/-! ## Mapping configuration, from `api.ts` lines 71-92 and the
`ColumnMapping` editor component -/

/-- Column type, from the TS union on `ColumnMapping.type` (`api.ts` line 80):
`'string' | 'int' | 'float' | 'decimal' | 'date' | 'datetime' | 'boolean' | 'fk'`. -/
inductive ColumnType where
  | string
  | int
  | float
  | decimal
  | date
  | datetime
  | boolean
  | fk
deriving DecidableEq

/-- All eight column types, in the order of the TS union (and of
`TYPE_OPTIONS` in the editor component). -/
def allColumnTypes : List ColumnType :=
  [.string, .int, .float, .decimal, .date, .datetime, .boolean, .fk]

/-- `on_missing` policy, from the TS union on `ForeignKeyConfig.on_missing`
(`api.ts` line 74): `'create' | 'ignore' | 'error'`. -/
inductive OnMissingPolicy where
  | create
  | ignore
  | error
deriving DecidableEq

/-- `ForeignKeyConfig` from `api.ts` lines 71-75. -/
structure ForeignKeyConfig where
  table : String
  lookup_column : String
  on_missing : OnMissingPolicy
deriving DecidableEq

/-- The property names of the TS `ForeignKeyConfig` interface, in declaration
order. -/
def foreignKeyConfigFieldNames : List String :=
  ["table", "lookup_column", "on_missing"]

/-- `ColumnMapping` from `api.ts` lines 77-83.  The source-column field is
named `sheet_column` in the source. -/
structure ColumnMapping where
  sheet_column : String
  db_column : String
  type : ColumnType
  required : Bool
  fk : Option ForeignKeyConfig
deriving DecidableEq

/-- The property names of the TS `ColumnMapping` interface, in declaration
order (`fk` is the optional one). -/
def columnMappingFieldNames : List String :=
  ["sheet_column", "db_column", "type", "required", "fk"]

/-- `ColumnInfo` from `api.ts` lines 56-62, restricted to the fields the
mapping editor reads (`suggested_type` arrives as a string and is cast to the
type union by `handleAddMapping`; it is kept as `ColumnType` here, covering
every value for which the cast is well-typed). -/
structure ColumnInfo where
  name : String
  suggested_type : ColumnType
deriving DecidableEq

/-- The JS regex replace `.replace(/\s+/g, '_')`: every maximal run of
whitespace becomes a single underscore.  The flag records whether the previous
character was whitespace (i.e. the run already produced its underscore). -/
def squashWhitespaceRuns (prevWs : Bool) : List Char → List Char
  | [] => []
  | c :: rest =>
    if c.isWhitespace then
      (if prevWs then [] else ['_']) ++ squashWhitespaceRuns true rest
    else
      c :: squashWhitespaceRuns false rest

/-- `column.name.toLowerCase().replace(/\s+/g, '_')` from `handleAddMapping`
(ColumnMapping component lines 59-67). -/
def toDbColumnName (name : String) : String :=
  String.mk (squashWhitespaceRuns false (jsToLower name).data)

/-- `handleAddMapping` from the `ColumnMapping` editor component (lines
59-67): appends a fresh mapping for `column` with `sheet_column` the source
column name, a lower-cased underscored `db_column`, the suggested type,
`required: false`, and no `fk` property. -/
def handleAddMapping (mappings : List ColumnMapping) (column : ColumnInfo) :
    List ColumnMapping :=
  mappings ++ [{ sheet_column := column.name
                 db_column := toDbColumnName column.name
                 type := column.suggested_type
                 required := false
                 fk := none }]

/-! ## SSE event payloads and the subscriber hooks
(`src/frontend/src/hooks/useJobSSE.ts`, `useJobsSSE.ts`) -/

/-- The JSON payload of a `job_status` SSE frame as the hooks read it: every
field the handlers access, each optional (`none` models an absent property).
`status` is read with `data.status as JobStatus`; payloads whose `status` is
not one of the four wire strings are outside this embedding. -/
structure StatusEventData where
  id : Option String
  job_id : Option String
  filename : Option String
  status : JobStatus
  total_rows : Option Nat
  processed_rows : Option Nat
  error_rows : Option Nat
  started_at : Option String
  finished_at : Option String
  created_at : Option String
deriving DecidableEq

/-- The JSON payload of a `job_progress` SSE frame, mirroring the spec event
`progress_update — {job_id, processed_rows, error_rows, total_rows?}` as the
`useJobSSE` handler reads it (the handler also accepts a fallback `id`
property). -/
structure ProgressEventData where
  job_id : Option String
  id : Option String
  processed_rows : Nat
  error_rows : Nat
  total_rows : Option Nat
deriving DecidableEq

namespace useJobSSE

/-- The `data as ImportJobDetail` cast in the `job_status` handler (line 50):
the raw payload reinterpreted as a full job record.  A runtime-`undefined`
numeric or `created_at` field is carried through as `none`/`""`; the branch is
guarded by `data.id && data.filename`, so `id` and `filename` are present. -/
def castDetail (e : StatusEventData) : ImportJobDetail :=
  { id := e.id.getD ""
    filename := e.filename.getD ""
    status := e.status
    total_rows := e.total_rows
    processed_rows := e.processed_rows
    error_rows := e.error_rows
    started_at := e.started_at
    finished_at := e.finished_at
    created_at := e.created_at.getD ""
    logs := [] }

/-- The `job_status` handler of `useJobSSE` (lines 42-61), as the state update
applied to the current job (`none` = no job yet):
`jobId = data.id || data.job_id`; on a missing or different current job the
payload replaces the state only when it is a full record
(`data.id && data.filename`); otherwise `status`, `started_at`, `finished_at`
are overwritten from the payload. -/
def applyJobStatus (prev : Option ImportJobDetail) (e : StatusEventData) :
    Option ImportJobDetail :=
  let jobId := jsOr e.id e.job_id
  match prev with
  | none =>
    if jsTruthy e.id && jsTruthy e.filename then some (castDetail e) else none
  | some p =>
    if jobId = some p.id then
      some { p with status := e.status
                    started_at := e.started_at
                    finished_at := e.finished_at }
    else
      if jsTruthy e.id && jsTruthy e.filename then some (castDetail e) else some p

/-- The `job_progress` handler of `useJobSSE` (lines 64-78):
`jobId = data.job_id || data.id`; when a current job exists and its `id`
equals `jobId`, overwrite `processed_rows`, `total_rows`, `error_rows` from
the payload; otherwise leave the state untouched. -/
def applyJobProgress (prev : Option ImportJobDetail) (e : ProgressEventData) :
    Option ImportJobDetail :=
  let jobId := jsOr e.job_id e.id
  match prev with
  | none => none
  | some p =>
    if jobId = some p.id then
      some { p with processed_rows := some e.processed_rows
                    total_rows := e.total_rows
                    error_rows := some e.error_rows }
    else
      some p

/-- The SSE event types `useJobSSE` registers handlers for, in registration
order (lines 42-113): `job_status`, `job_progress`, `job_log`, `connected`,
plus the client-local `error` and `max_reconnect_attempts`. -/
def registeredEventTypes : List String :=
  ["job_status", "job_progress", "job_log", "connected",
   "error", "max_reconnect_attempts"]

end useJobSSE

namespace useJobsSSE

/-- `!params?.status || data.status === params.status` (line 49): the incoming
job is kept when no status filter is set (or it is the falsy empty string), or
the payload's status string equals the filter. -/
def statusFilterPasses (filt : Option String) (e : StatusEventData) : Bool :=
  !(jsTruthy filt) || (filt == some e.status.toWire)

/-- The list entry built for a job not yet in the list (lines 50-63):
`filename: data.filename || ''`, `created_at: data.created_at || now`, all
other fields copied from the payload.  `now` is the caller-supplied current
time (`new Date().toISOString()`); `id` is the resolved `jobId` (the theorems
only use it with a present id, where `getD` never takes its default). -/
def newJobFromEvent (jobId : Option String) (now : String)
    (e : StatusEventData) : ImportJobResponse :=
  { id := jobId.getD ""
    filename := jsOrStr e.filename ""
    status := e.status
    total_rows := e.total_rows
    processed_rows := e.processed_rows
    error_rows := e.error_rows
    started_at := e.started_at
    finished_at := e.finished_at
    created_at := jsOrStr e.created_at now }

/-- The in-place update of an existing list entry (lines 69-79): `status`,
`started_at`, `finished_at` overwritten from the payload; the counters only
when present (`?? old`). -/
def updateJobFromEvent (old : ImportJobResponse) (e : StatusEventData) :
    ImportJobResponse :=
  { old with status := e.status
             started_at := e.started_at
             finished_at := e.finished_at
             processed_rows := jsNullish e.processed_rows old.processed_rows
             total_rows := jsNullish e.total_rows old.total_rows
             error_rows := jsNullish e.error_rows old.error_rows }

/-- The `job_status` handler of `useJobsSSE` (lines 41-82), as the update of
the jobs list: `jobId = data.job_id || data.id`; `findIndex(j => j.id === jobId)`;
a missing job is prepended when the status filter passes, an existing one is
updated in place (`updated[index] = ...`).  The inner `none` branch of the
index lookup is unreachable (`findIdx?` returns in-bounds indices). -/
def applyJobStatus (filt : Option String) (now : String)
    (prev : List ImportJobResponse) (e : StatusEventData) :
    List ImportJobResponse :=
  let jobId := jsOr e.job_id e.id
  match prev.findIdx? (fun j => jobId == some j.id) with
  | none =>
    if statusFilterPasses filt e then
      newJobFromEvent jobId now e :: prev
    else
      prev
  | some i =>
    match prev[i]? with
    | some old => prev.set i (updateJobFromEvent old e)
    | none => prev

end useJobsSSE

/-! ## Spec-modelled backend: Event Bus event types and the Row Processor
counters.  The backend service itself (worker, event bus, SSE endpoint) is not
under the repository snapshot's source tree — only its shell scripts and
documentation are — so these parts are modelled from the specification. -/

/-- Modelled from the spec: the Event Bus event types, §3 "Event":
`event_type` ∈ `status_update`, `progress_update`, `log`, `connected`.  The
bus implementation is not under `src/`. -/
inductive BusEventType where
  | status_update
  | progress_update
  | log
  | connected
deriving DecidableEq

/-- Modelled from the spec: the wire name of each Event Bus event type. -/
def BusEventType.name : BusEventType → String
  | .status_update => "status_update"
  | .progress_update => "progress_update"
  | .log => "log"
  | .connected => "connected"

/-- Modelled from the spec: an Event Bus event, §3 "Event": an in-memory value
`job_id`, `event_type`, `data` (the payload is kept opaque here).  The bus
implementation is not under `src/`. -/
structure BusEvent where
  job_id : Option String
  event_type : BusEventType
deriving DecidableEq

/-- Modelled from the spec: the outcome of one row in the Row Processor (§4.5
step 4): the row is either appended to the chunk's insert buffer (`ok`) or
rejected and counted as an error (`err`).  The Row Processor is not under
`src/`. -/
inductive RowOutcome where
  | ok
  | err
deriving DecidableEq

/-- Modelled from the spec: the per-job counters the Row Processor maintains
(§3 "Job", §4.5 step 6).  `total_rows` is set by the submitter's pre-count
before processing starts. -/
structure WorkerJobState where
  total_rows : Nat
  processed_rows : Nat
  error_rows : Nat
deriving DecidableEq

/-- Modelled from the spec: the job state right after the pre-count set
`total_rows` (§4.1 effect 3): counters at zero, `total_rows` the number of
data rows of the staged file. -/
def initialWorkerState (rows : List RowOutcome) : WorkerJobState :=
  { total_rows := rows.length, processed_rows := 0, error_rows := 0 }

/-- Modelled from the spec: the counter update for one row (§4.5 steps 4 and
6): a successful row increments `processed_rows`, a rejected one
`error_rows`. -/
def stepRow (s : WorkerJobState) : RowOutcome → WorkerJobState
  | .ok => { s with processed_rows := s.processed_rows + 1 }
  | .err => { s with error_rows := s.error_rows + 1 }

/-- Modelled from the spec: the job state after the worker has handled the
first `k` rows of the file. -/
def workerStateAfter (rows : List RowOutcome) (k : Nat) : WorkerJobState :=
  (rows.take k).foldl stepRow (initialWorkerState rows)

/-- Modelled from the spec: the `progress_update` payload the Row Processor
emits from a worker state (§4.6): `job_id`, `processed_rows`, `error_rows`,
`total_rows`. -/
def progressEventAt (jid : String) (rows : List RowOutcome) (k : Nat) :
    ProgressEventData :=
  let s := workerStateAfter rows k
  { job_id := some jid
    id := none
    processed_rows := s.processed_rows
    error_rows := s.error_rows
    total_rows := some s.total_rows }

/-- The invariant `processed_rows + error_rows ≤ total_rows` once `total_rows`
is known, on a subscriber-side job record (an absent counter reads as 0, an
absent `total_rows` makes the invariant vacuous). -/
def countersWithinTotal (j : ImportJobDetail) : Bool :=
  match j.total_rows with
  | none => true
  | some t => j.processed_rows.getD 0 + j.error_rows.getD 0 ≤ t

/-- `countersWithinTotal` lifted to the subscriber's state (`none` = no job
tracked yet, vacuously fine). -/
def countersWithinTotalOpt (st : Option ImportJobDetail) : Bool :=
  match st with
  | none => true
  | some j => countersWithinTotal j

/-- The tracked job, if any, has a terminal status. -/
def terminalOpt (st : Option ImportJobDetail) : Bool :=
  match st with
  | none => true
  | some j => j.status.isTerminal

/-! # Shared lemmas -/

/-- Folding the row-outcome step adds exactly one to the counter sum per row
and never touches `total_rows`. -/
theorem foldl_stepRow_counts (l : List RowOutcome) (s : WorkerJobState) :
    (l.foldl stepRow s).processed_rows + (l.foldl stepRow s).error_rows
        = s.processed_rows + s.error_rows + l.length ∧
    (l.foldl stepRow s).total_rows = s.total_rows := by
  induction l generalizing s with
  | nil => simp
  | cons r rest ih =>
    obtain ⟨h1, h2⟩ := ih (stepRow s r)
    refine ⟨?_, ?_⟩ <;> cases r <;>
      simp only [List.foldl_cons, List.length_cons, stepRow] at h1 h2 ⊢ <;>
      omega

/-- The spec-modelled worker counters satisfy
`processed_rows + error_rows ≤ total_rows` at every step. -/
theorem workerStateAfter_counts (rows : List RowOutcome) (k : Nat) :
    (workerStateAfter rows k).processed_rows + (workerStateAfter rows k).error_rows
      ≤ (workerStateAfter rows k).total_rows := by
  obtain ⟨h1, h2⟩ := foldl_stepRow_counts (rows.take k) (initialWorkerState rows)
  unfold workerStateAfter
  rw [h1, h2]
  simp only [initialWorkerState, List.length_take]
  omega

/-! # Claims -/

/-- Claim C10: `calculateProgress` is total; it returns 0 when `total` is
`null` or `0`, and `Math.round((processed / total) * 100)` otherwise, the
division being reached only for non-zero `total`; the result is always a
(finite) integer. -/
theorem claim_C10 (p t : ℚ) (total : Option ℚ) :
    calculateProgress p none = 0 ∧
    calculateProgress p (some 0) = 0 ∧
    (t ≠ 0 → calculateProgress p (some t) = ((mathRound (p / t * 100) : ℤ) : ℚ)) ∧
    ∃ n : ℤ, calculateProgress p total = (n : ℚ) := by
  refine ⟨rfl, by simp [calculateProgress], fun h => by simp [calculateProgress, h], ?_⟩
  cases total with
  | none => exact ⟨0, rfl⟩
  | some t' =>
    by_cases h : t' = 0
    · exact ⟨0, by simp [calculateProgress, h]⟩
    · exact ⟨mathRound (p / t' * 100), by simp [calculateProgress, h]⟩

/-- Witness for C10 at `processed = 1`, `total = 4`: the non-zero branch is
taken and yields the integer 25. -/
theorem claim_C10_witness :
    (4 : ℚ) ≠ 0 ∧
    calculateProgress 1 (some 4) = ((mathRound ((1 : ℚ) / 4 * 100) : ℤ) : ℚ) ∧
    calculateProgress 1 (some 4) = 25 := by
  refine ⟨by norm_num, (claim_C10 1 4 (some 4)).2.2.1 (by norm_num), ?_⟩
  norm_num [calculateProgress, mathRound]

/-- Claim C9: below the attempt cap, `scheduleReconnect` schedules the retry
after `min(reconnectDelay * backoffMultiplier ^ n, maxReconnectDelay)` ms —
with the default options `min(1000 * 2 ^ n, 30000)` — and once
`reconnectAttempts >= maxReconnectAttempts` it emits `max_reconnect_attempts`
instead of scheduling. -/
theorem claim_C9 (opts : SSEClient.Options) (n : Nat) :
    (SSEClient.atMaxAttempts opts n = false →
        SSEClient.scheduleReconnect opts n =
          .retryAfter (min (opts.reconnectDelay * opts.backoffMultiplier ^ n)
            opts.maxReconnectDelay)) ∧
    (SSEClient.atMaxAttempts opts n = true →
        SSEClient.scheduleReconnect opts n = .emitMaxReconnectAttempts) ∧
    (∀ m, opts.maxReconnectAttempts = some m → m ≤ n →
        SSEClient.scheduleReconnect opts n = .emitMaxReconnectAttempts) ∧
    SSEClient.scheduleReconnect SSEClient.defaultOptions n =
      .retryAfter (min (1000 * 2 ^ n) 30000) := by
  refine ⟨fun h => by simp [SSEClient.scheduleReconnect, h],
          fun h => by simp [SSEClient.scheduleReconnect, h],
          fun m hm hle => ?_,
          by simp [SSEClient.scheduleReconnect, SSEClient.atMaxAttempts,
                   SSEClient.defaultOptions]⟩
  have h : SSEClient.atMaxAttempts opts n = true := by
    simp [SSEClient.atMaxAttempts, hm]
    omega
  simp [SSEClient.scheduleReconnect, h]

/-- Witness for C9: a client capped at 4 attempts gives up on its 4th retry,
and the default client's 3rd retry waits `min(1000 * 2 ^ 3, 30000) = 8000` ms. -/
theorem claim_C9_witness :
    SSEClient.atMaxAttempts
        { reconnectDelay := 500, maxReconnectDelay := 10000,
          backoffMultiplier := 3, maxReconnectAttempts := some 4 } 4 = true ∧
    SSEClient.scheduleReconnect
        { reconnectDelay := 500, maxReconnectDelay := 10000,
          backoffMultiplier := 3, maxReconnectAttempts := some 4 } 4 =
      .emitMaxReconnectAttempts ∧
    SSEClient.scheduleReconnect SSEClient.defaultOptions 3 = .retryAfter 8000 := by
  refine ⟨by decide,
          (claim_C9 { reconnectDelay := 500, maxReconnectDelay := 10000,
                      backoffMultiplier := 3, maxReconnectAttempts := some 4 } 4).2.1
            (by decide), ?_⟩
  have h := (claim_C9 SSEClient.defaultOptions 3).2.2.2
  norm_num at h
  exact h

/-- Counterexample to C2 as stated: the subscriber hook does not register a
handler for the bus event name `status_update` (nor the other bus names); it
registers the SSE wire names, and additionally the client-local
`max_reconnect_attempts`, which is outside the claimed set. -/
theorem claim_C2_counterexample :
    "status_update" ∉ useJobSSE.registeredEventTypes ∧
    "progress_update" ∉ useJobSSE.registeredEventTypes ∧
    "max_reconnect_attempts" ∈ useJobSSE.registeredEventTypes := by
  decide

/-- Claim C2 (amended): every Event Bus event carries an `event_type` drawn
from exactly the four bus event types `status_update`, `progress_update`,
`log`, `connected` (spec-modelled: the bus is not under `src/`), while the
subscriber hook registers handlers for the SSE wire names `job_status`,
`job_progress`, `job_log`, `connected` — the initial snapshot arriving under
`job_status` — plus the client-local `error` and `max_reconnect_attempts`. -/
theorem claim_C2_amended :
    (∀ e : BusEvent,
        e.event_type.name ∈ ["status_update", "progress_update", "log", "connected"]) ∧
    useJobSSE.registeredEventTypes =
      ["job_status", "job_progress", "job_log", "connected",
       "error", "max_reconnect_attempts"] ∧
    "job_status" ∈ useJobSSE.registeredEventTypes := by
  refine ⟨fun e => ?_, rfl, by decide⟩
  cases e.event_type <;> simp [BusEventType.name]

/-- Counterexample to C5 as stated: the column-mapping field holding the
source column is named `sheet_column`, not `source_column`, in the
`ColumnMapping` interface. -/
theorem claim_C5_counterexample :
    "source_column" ∉ columnMappingFieldNames ∧
    "sheet_column" ∈ columnMappingFieldNames := by
  decide

/-- Claim C5 (amended): every column mapping carries exactly the fields
`sheet_column`, `db_column`, `type`, `required` and the optional `fk`, with
`type` drawn from exactly the eight-element union, and every fk entry carries
exactly `table`, `lookup_column`, `on_missing` with `on_missing` one of
`create`, `ignore`, `error`; a mapping freshly added by the editor has
`required = false` and no `fk`. -/
theorem claim_C5_amended (ms : List ColumnMapping) (col : ColumnInfo)
    (m : ColumnMapping) (hm : m ∈ handleAddMapping ms col) :
    columnMappingFieldNames = ["sheet_column", "db_column", "type", "required", "fk"] ∧
    (∀ t : ColumnType, t ∈ allColumnTypes) ∧
    allColumnTypes.length = 8 ∧
    foreignKeyConfigFieldNames = ["table", "lookup_column", "on_missing"] ∧
    (∀ pol : OnMissingPolicy,
        pol = .create ∨ pol = .ignore ∨ pol = .error) ∧
    (handleAddMapping ms col).length = ms.length + 1 ∧
    (m ∈ ms ∨ (m.sheet_column = col.name ∧ m.required = false ∧ m.fk = none)) := by
  refine ⟨rfl, fun t => by cases t <;> decide, rfl, rfl,
          fun pol => by cases pol <;> simp, by simp [handleAddMapping], ?_⟩
  simp only [handleAddMapping, List.mem_append, List.mem_singleton] at hm
  rcases hm with h | h
  · exact Or.inl h
  · exact Or.inr (by simp [h])

/-- Witness for C5: adding the column `Valor FIPE` to an empty mapping list
produces the single mapping with `db_column = "valor_fipe"`, and that mapping
is fresh (`required = false`, no `fk`). -/
theorem claim_C5_witness :
    ({ sheet_column := "Valor FIPE", db_column := "valor_fipe",
       type := ColumnType.decimal, required := false, fk := none } : ColumnMapping) ∈
      handleAddMapping [] { name := "Valor FIPE", suggested_type := ColumnType.decimal } ∧
    (({ sheet_column := "Valor FIPE", db_column := "valor_fipe",
        type := ColumnType.decimal, required := false, fk := none } : ColumnMapping) ∈
        ([] : List ColumnMapping) ∨
      (({ sheet_column := "Valor FIPE", db_column := "valor_fipe",
          type := ColumnType.decimal, required := false, fk := none } : ColumnMapping).sheet_column
          = ({ name := "Valor FIPE", suggested_type := ColumnType.decimal } : ColumnInfo).name ∧
        ({ sheet_column := "Valor FIPE", db_column := "valor_fipe",
           type := ColumnType.decimal, required := false, fk := none } : ColumnMapping).required
          = false ∧
        ({ sheet_column := "Valor FIPE", db_column := "valor_fipe",
           type := ColumnType.decimal, required := false, fk := none } : ColumnMapping).fk
          = none)) :=
  ⟨by decide,
   (claim_C5_amended [] { name := "Valor FIPE", suggested_type := ColumnType.decimal }
      { sheet_column := "Valor FIPE", db_column := "valor_fipe",
        type := ColumnType.decimal, required := false, fk := none }
      (by decide)).2.2.2.2.2.2⟩

/-- Counterexample to C4 as stated: a 10-byte file named `data.txt` — whose
filename extension is none of `csv`, `xls`, `xlsx` — is nevertheless accepted
by `beforeUpload` because its MIME type `text/csv` passes the type check. -/
theorem claim_C4_counterexample :
    beforeUploadAccepts { name := "data.txt", mime := "text/csv", size := 10 } = true ∧
    jsEndsWith "data.txt" ".csv" = false ∧
    jsEndsWith "data.txt" ".xls" = false ∧
    jsEndsWith "data.txt" ".xlsx" = false := by
  decide

/-- Claim C4 (amended): submission keeps a candidate file iff its MIME type is
one of the three spreadsheet MIME types OR its filename ends in
`.csv`/`.xlsx`/`.xls`, AND its size is strictly below 20 MiB; a file failing
this is rejected synchronously — it never enters the upload list from which
`handleUpload` issues requests and creates jobs. -/
theorem claim_C4_amended (f : UploadCandidate) (fs : List UploadCandidate) :
    (beforeUploadAccepts f = true ↔
      ((f.mime ∈ validUploadMimeTypes ∨ jsEndsWith f.name ".csv" = true ∨
          jsEndsWith f.name ".xlsx" = true ∨ jsEndsWith f.name ".xls" = true) ∧
        f.size < 20 * 1024 * 1024)) ∧
    (f ∈ acceptedFiles fs ↔ f ∈ fs ∧ beforeUploadAccepts f = true) := by
  constructor
  · simp [beforeUploadAccepts, Bool.or_eq_true, Bool.and_eq_true,
      List.elem_iff, and_assoc, or_assoc]
  · simp [acceptedFiles, List.mem_filter]

/-- Claim C6: a received SSE frame whose data is empty (trims to the empty
string), absent, not a string, or whose trimmed data begins with `:` — in
particular the `:heartbeat` keep-alive — invokes no registered callback
(`dispatch` yields nothing) and leaves the subscriber state unchanged. -/
theorem claim_C6 {α σ : Type} (parse : String → Option α) (apply : σ → α → σ)
    (st : σ) (d : SSEClient.EventData)
    (h : d = .absent ∨ d = .nonString ∨
      ∃ s, d = .str s ∧ (jsTrim s = "" ∨ jsStartsWith (jsTrim s) ":" = true)) :
    SSEClient.dispatch parse d = none ∧
    SSEClient.stepRaw parse apply st d = st := by
  have hd : SSEClient.dispatch parse d = none := by
    rcases h with h | h | ⟨s, rfl, h⟩
    · rw [h]; rfl
    · rw [h]; rfl
    · rcases h with h | h <;> simp [SSEClient.dispatch, h]
  exact ⟨hd, by simp [SSEClient.stepRaw, hd]⟩

/-- Witness for C6 at the `:heartbeat` comment payload, with a parser that
would succeed and a callback that would change the state: neither runs. -/
theorem claim_C6_witness :
    ((SSEClient.EventData.str ":heartbeat") = .absent ∨
      (SSEClient.EventData.str ":heartbeat") = .nonString ∨
      ∃ s, (SSEClient.EventData.str ":heartbeat") = .str s ∧
        (jsTrim s = "" ∨ jsStartsWith (jsTrim s) ":" = true)) ∧
    SSEClient.dispatch (fun s => some s) (.str ":heartbeat") = none ∧
    SSEClient.stepRaw (fun s => some s) (fun (n : Nat) (_ : String) => n + 1)
      0 (.str ":heartbeat") = 0 :=
  ⟨Or.inr (Or.inr ⟨":heartbeat", rfl, Or.inr (by decide)⟩),
   claim_C6 (fun s => some s) (fun (n : Nat) (_ : String) => n + 1) 0
     (.str ":heartbeat")
     (Or.inr (Or.inr ⟨":heartbeat", rfl, Or.inr (by decide)⟩))⟩

/-- Setting an index to the value it already holds leaves a list unchanged. -/
theorem set_of_getElem?_eq {α : Type} (l : List α) (i : Nat) (v : α)
    (h : l[i]? = some v) : l.set i v = l := by
  induction l generalizing i with
  | nil => rfl
  | cons a t ih =>
    cases i with
    | zero => simp_all
    | succ n =>
      simp only [List.getElem?_cons_succ] at h
      simp [ih n h]

/-- Claim C7: applying a `job_progress` event `{job_id, processed_rows,
error_rows, total_rows?}`: when a current job exists with the event's job id,
exactly `processed_rows`, `total_rows`, `error_rows` are set to the event's
values and every other field is unchanged; when no job is tracked or the ids
differ, the state is wholly unchanged. -/
theorem claim_C7 (e : ProgressEventData) (p : ImportJobDetail) (jid : String)
    (hjid : e.job_id = some jid) (hne : jid ≠ "") :
    useJobSSE.applyJobProgress none e = none ∧
    (jid = p.id →
      useJobSSE.applyJobProgress (some p) e =
        some { id := p.id, filename := p.filename, status := p.status,
               total_rows := e.total_rows,
               processed_rows := some e.processed_rows,
               error_rows := some e.error_rows,
               started_at := p.started_at, finished_at := p.finished_at,
               created_at := p.created_at, logs := p.logs }) ∧
    (jid ≠ p.id → useJobSSE.applyJobProgress (some p) e = some p) := by
  have hor : jsOr e.job_id e.id = some jid := by
    simp [jsOr, jsTruthy, hjid, hne]
  rcases p with ⟨⟨pid, pfn, pst, ptot, ppr, per, psa, pfa, pca⟩, plogs⟩
  refine ⟨rfl, fun h => ?_, fun h => ?_⟩
  · simp only at h
    simp [useJobSSE.applyJobProgress, hor, h]
  · simp only at h
    simp [useJobSSE.applyJobProgress, hor, h]

/-- Witness for C7: a matching progress event overwrites exactly the three
counter fields of the tracked job. -/
theorem claim_C7_witness :
    ({ job_id := some "j1", id := none, processed_rows := 5, error_rows := 1,
       total_rows := some 10 } : ProgressEventData).job_id = some "j1" ∧
    ("j1" : String) ≠ "" ∧
    useJobSSE.applyJobProgress
        (some { id := "j1", filename := "a.csv", status := .processing,
                total_rows := some 9, processed_rows := some 4,
                error_rows := some 0, started_at := some "t0",
                finished_at := none, created_at := "t", logs := [] })
        { job_id := some "j1", id := none, processed_rows := 5, error_rows := 1,
          total_rows := some 10 } =
      some { id := "j1", filename := "a.csv", status := .processing,
             total_rows := some 10, processed_rows := some 5,
             error_rows := some 1, started_at := some "t0",
             finished_at := none, created_at := "t", logs := [] } :=
  ⟨rfl, by decide,
   (claim_C7 { job_id := some "j1", id := none, processed_rows := 5,
               error_rows := 1, total_rows := some 10 }
      { id := "j1", filename := "a.csv", status := .processing,
        total_rows := some 9, processed_rows := some 4, error_rows := some 0,
        started_at := some "t0", finished_at := none, created_at := "t",
        logs := [] }
      "j1" rfl (by decide)).2.1 rfl⟩

/-- Counterexample to C3 as stated: the `job_status` step relation copies the
event's status unconditionally, so a `processing` event for the tracked
completed job moves the mirrored state out of the terminal status. -/
theorem claim_C3_counterexample :
    JobStatus.isTerminal .completed = true ∧
    (useJobSSE.applyJobStatus
        (some { id := "j1", filename := "f.csv", status := .completed,
                total_rows := some 2, processed_rows := some 2,
                error_rows := some 0, started_at := some "s",
                finished_at := some "e", created_at := "c", logs := [] })
        { id := some "j1", job_id := none, filename := none,
          status := .processing, total_rows := none, processed_rows := none,
          error_rows := none, started_at := some "s", finished_at := none,
          created_at := none }).map (fun j => j.status) = some .processing := by
  decide

/-- Claim C3 (amended): the `job_status` step relation applies the incoming
status unconditionally, so a terminal mirrored state stays terminal exactly
when the incoming events themselves never carry a non-terminal status — which
the backend job state machine guarantees for a job that has reached
`COMPLETED`/`FAILED`. Under that assumption on the event stream, a mirrored
job whose status is `completed` or `failed` never subsequently has status
`processing` or `pending`. -/
theorem claim_C3_amended (events : List StatusEventData)
    (st : Option ImportJobDetail)
    (hst : terminalOpt st = true)
    (hev : ∀ e ∈ events, e.status.isTerminal = true) :
    terminalOpt (events.foldl useJobSSE.applyJobStatus st) = true := by
  induction events generalizing st with
  | nil => exact hst
  | cons e rest ih =>
    simp only [List.foldl_cons]
    refine ih _ ?_ (fun e' he' => hev e' (by simp [he']))
    have he : e.status.isTerminal = true := hev e (by simp)
    cases st with
    | none =>
      simp only [useJobSSE.applyJobStatus]
      split <;> simp [terminalOpt, useJobSSE.castDetail, he]
    | some p =>
      simp only [terminalOpt] at hst
      simp only [useJobSSE.applyJobStatus]
      split
      · simpa [terminalOpt] using he
      · split
        · simp [terminalOpt, useJobSSE.castDetail, he]
        · simpa [terminalOpt] using hst

/-- Witness for C3: a completed job stays terminal across a `failed`-status
event stream. -/
theorem claim_C3_witness :
    terminalOpt
        (some { id := "j1", filename := "f.csv", status := .completed,
                total_rows := some 2, processed_rows := some 2,
                error_rows := some 0, started_at := some "s",
                finished_at := some "e", created_at := "c", logs := [] }) = true ∧
    JobStatus.isTerminal .failed = true ∧
    terminalOpt
      ([({ id := some "j1", job_id := none, filename := none,
           status := .failed, total_rows := none, processed_rows := none,
           error_rows := none, started_at := none, finished_at := none,
           created_at := none } : StatusEventData)].foldl
        useJobSSE.applyJobStatus
        (some { id := "j1", filename := "f.csv", status := .completed,
                total_rows := some 2, processed_rows := some 2,
                error_rows := some 0, started_at := some "s",
                finished_at := some "e", created_at := "c", logs := [] })) = true :=
  ⟨by decide, by decide,
   claim_C3_amended
     [{ id := some "j1", job_id := none, filename := none, status := .failed,
        total_rows := none, processed_rows := none, error_rows := none,
        started_at := none, finished_at := none, created_at := none }]
     (some { id := "j1", filename := "f.csv", status := .completed,
             total_rows := some 2, processed_rows := some 2,
             error_rows := some 0, started_at := some "s",
             finished_at := some "e", created_at := "c", logs := [] })
     (by decide)
     (by intro e' he'; simp only [List.mem_singleton] at he'; subst he'; decide)⟩

/-- Claim C8: the jobs-list `job_status` handler — a job not yet in the list
is prepended exactly when no status filter is active or the event's status
equals the filter (the list is untouched otherwise); a job already in the
list is updated in place: same length, same ids in the same order, every
other entry untouched. -/
theorem claim_C8 (filt : Option String) (now : String)
    (prev : List ImportJobResponse) (e : StatusEventData) :
    (useJobsSSE.statusFilterPasses filt e = true ↔
      (jsTruthy filt = false ∨ filt = some e.status.toWire)) ∧
    (prev.findIdx? (fun j => jsOr e.job_id e.id == some j.id) = none ↔
      ∀ j ∈ prev, ¬(jsOr e.job_id e.id = some j.id)) ∧
    (prev.findIdx? (fun j => jsOr e.job_id e.id == some j.id) = none →
      (useJobsSSE.statusFilterPasses filt e = true →
        useJobsSSE.applyJobStatus filt now prev e =
          useJobsSSE.newJobFromEvent (jsOr e.job_id e.id) now e :: prev) ∧
      (useJobsSSE.statusFilterPasses filt e = false →
        useJobsSSE.applyJobStatus filt now prev e = prev)) ∧
    (∀ i old, prev.findIdx? (fun j => jsOr e.job_id e.id == some j.id) = some i →
      prev[i]? = some old →
      useJobsSSE.applyJobStatus filt now prev e =
        prev.set i (useJobsSSE.updateJobFromEvent old e) ∧
      (useJobsSSE.applyJobStatus filt now prev e).length = prev.length ∧
      (useJobsSSE.applyJobStatus filt now prev e).map (fun j => j.id) =
        prev.map (fun j => j.id) ∧
      (∀ k, k ≠ i → (useJobsSSE.applyJobStatus filt now prev e)[k]? = prev[k]?) ∧
      (useJobsSSE.applyJobStatus filt now prev e)[i]? =
        some (useJobsSSE.updateJobFromEvent old e)) := by
  refine ⟨?_, ?_, fun hnone => ⟨fun hf => ?_, fun hf => ?_⟩, fun i old hidx hold => ?_⟩
  · simp [useJobsSSE.statusFilterPasses]
  · rw [List.findIdx?_eq_none_iff]
    simp
  · simp [useJobsSSE.applyJobStatus, hnone, hf]
  · simp [useJobsSSE.applyJobStatus, hnone, hf]
  · have hres : useJobsSSE.applyJobStatus filt now prev e =
        prev.set i (useJobsSSE.updateJobFromEvent old e) := by
      simp [useJobsSSE.applyJobStatus, hidx, hold]
    have hlt : i < prev.length := (List.getElem?_eq_some.mp hold).1
    refine ⟨hres, by simp [hres], ?_, fun k hk => ?_, ?_⟩
    · rw [hres, List.map_set]
      apply set_of_getElem?_eq
      rw [List.getElem?_map, hold]
      simp [useJobsSSE.updateJobFromEvent]
    · rw [hres]
      exact List.getElem?_set_ne (Ne.symm hk)
    · rw [hres]
      exact List.getElem?_set_self hlt

/-- Witness for C8: a matching event for the single-element list updates that
entry in place. -/
theorem claim_C8_witness :
    ([({ id := "j1", filename := "a.csv", status := .pending,
         total_rows := none, processed_rows := some 0, error_rows := some 0,
         started_at := none, finished_at := none,
         created_at := "t0" } : ImportJobResponse)].findIdx?
      (fun j =>
        jsOr ({ id := none, job_id := some "j1", filename := none,
                status := .processing, total_rows := some 7,
                processed_rows := some 1, error_rows := some 0,
                started_at := some "t1", finished_at := none,
                created_at := none } : StatusEventData).job_id
            ({ id := none, job_id := some "j1", filename := none,
               status := .processing, total_rows := some 7,
               processed_rows := some 1, error_rows := some 0,
               started_at := some "t1", finished_at := none,
               created_at := none } : StatusEventData).id == some j.id)) = some 0 ∧
    useJobsSSE.applyJobStatus none "now"
        [{ id := "j1", filename := "a.csv", status := .pending,
           total_rows := none, processed_rows := some 0, error_rows := some 0,
           started_at := none, finished_at := none, created_at := "t0" }]
        { id := none, job_id := some "j1", filename := none,
          status := .processing, total_rows := some 7, processed_rows := some 1,
          error_rows := some 0, started_at := some "t1", finished_at := none,
          created_at := none } =
      [{ id := "j1", filename := "a.csv", status := .pending,
         total_rows := none, processed_rows := some 0, error_rows := some 0,
         started_at := none, finished_at := none, created_at := "t0" }].set 0
        (useJobsSSE.updateJobFromEvent
          { id := "j1", filename := "a.csv", status := .pending,
            total_rows := none, processed_rows := some 0, error_rows := some 0,
            started_at := none, finished_at := none, created_at := "t0" }
          { id := none, job_id := some "j1", filename := none,
            status := .processing, total_rows := some 7, processed_rows := some 1,
            error_rows := some 0, started_at := some "t1", finished_at := none,
            created_at := none }) :=
  ⟨by decide,
   ((claim_C8 none "now"
       [{ id := "j1", filename := "a.csv", status := .pending,
          total_rows := none, processed_rows := some 0, error_rows := some 0,
          started_at := none, finished_at := none, created_at := "t0" }]
       { id := none, job_id := some "j1", filename := none,
         status := .processing, total_rows := some 7, processed_rows := some 1,
         error_rows := some 0, started_at := some "t1", finished_at := none,
         created_at := none }).2.2.2 0
     { id := "j1", filename := "a.csv", status := .pending,
       total_rows := none, processed_rows := some 0, error_rows := some 0,
       started_at := none, finished_at := none, created_at := "t0" }
     (by decide) (by decide)).1⟩

/-- Claim C1: with the Row Processor counters modelled from the spec (the
worker is not under `src/`), `processed_rows + error_rows ≤ total_rows` holds
at every point of every execution once `total_rows` is set; and the job state
a subscriber maintains by applying any stream of the worker's progress events
satisfies the same inequality once `total_rows` is known, provided its
starting state did. -/
theorem claim_C1 (rows : List RowOutcome) (jid : String) (ks : List Nat)
    (init : Option ImportJobDetail)
    (hinit : countersWithinTotalOpt init = true) :
    (∀ k, (workerStateAfter rows k).processed_rows +
        (workerStateAfter rows k).error_rows ≤
          (workerStateAfter rows k).total_rows) ∧
    countersWithinTotalOpt
      ((ks.map (progressEventAt jid rows)).foldl useJobSSE.applyJobProgress init)
      = true := by
  refine ⟨fun k => workerStateAfter_counts rows k, ?_⟩
  induction ks generalizing init with
  | nil => exact hinit
  | cons k rest ih =>
    simp only [List.map_cons, List.foldl_cons]
    apply ih
    cases init with
    | none => rfl
    | some p =>
      by_cases hmatch : jsOr (some jid) none = some p.id
      · simp only [useJobSSE.applyJobProgress, progressEventAt, hmatch, if_pos]
        simpa [countersWithinTotalOpt, countersWithinTotal] using
          workerStateAfter_counts rows k
      · simp only [useJobSSE.applyJobProgress, progressEventAt, hmatch, if_neg,
          not_false_iff]
        exact hinit

/-- Witness for C1: a worker over two rows (one inserted, one rejected) keeps
its counters within the total, and a subscriber starting with no tracked job
and applying the progress events after 0, 1 and 2 rows ends with counters
within the total. -/
theorem claim_C1_witness :
    countersWithinTotalOpt none = true ∧
    (workerStateAfter [RowOutcome.ok, RowOutcome.err] 2).processed_rows +
        (workerStateAfter [RowOutcome.ok, RowOutcome.err] 2).error_rows ≤
      (workerStateAfter [RowOutcome.ok, RowOutcome.err] 2).total_rows ∧
    countersWithinTotalOpt
      (([0, 1, 2].map (progressEventAt "j1" [RowOutcome.ok, RowOutcome.err])).foldl
        useJobSSE.applyJobProgress none) = true :=
  ⟨by decide,
   (claim_C1 [RowOutcome.ok, RowOutcome.err] "j1" [0, 1, 2] none (by decide)).1 2,
   (claim_C1 [RowOutcome.ok, RowOutcome.err] "j1" [0, 1, 2] none (by decide)).2⟩

end ImportRT
